import Mathlib

/-!
Verification development for the viberunner enforcement protocol.

The development shallowly embeds the pieces of the repository that carry the
protocol's correctness properties:

* the generated verifier script (scripts/viberunner-hr-check, produced by
  generateHrCheckScript in packages/repo-bootstrap/src/index.ts);
* the hysteresis run-state machine (RunStateMachine in packages/shared);
* the rolling-window pace calculator (PaceCalculator in packages/shared);
* the debounced publisher (updateSessionSignalRefs in services/api).

Strings are modelled as lists of characters, JavaScript numbers as rationals,
Unix timestamps as integers, and fallible lookups as Option values.
-/

/- ===================== Verifier script embedding ===================== -/

/-- Characters of the text null, which jq -r prints for an absent field. -/
def nullChars : List Char := ("null").data

/-- Characters of the text true, the serialized form of the boolean true. -/
def trueChars : List Char := ("true").data

/-- Characters of the text false, the serialized form of the boolean false. -/
def falseChars : List Char := ("false").data

/-- Fields the script extracts from the fetched hr-signal.json payload with
jq -r.  A value of none models jq printing null for a missing field.  The
expiry field is the one the script compares arithmetically, so it is carried
as an integer. -/
structure HrPayloadFields where
  v : Option (List Char)
  user_key : Option (List Char)
  hr_ok : Option (List Char)
  bpm : Option (List Char)
  threshold_bpm : Option (List Char)
  exp_unix : Option Int
  nonce : Option (List Char)
  sig : Option (List Char)
deriving DecidableEq

/-- Environment one invocation of the generated viberunner-hr-check script
runs in: which required tools resolve, whether the config file exists, the
config values jq extracts, whether the git fetch of the signal ref succeeds,
whether the payload blob is present, the extracted payload fields, the
current Unix time, and the outcome of the openssl Ed25519 verification of
the signature over the canonical bytes. -/
structure ScriptEnv where
  jqInstalled : Bool
  opensslInstalled : Bool
  xxdInstalled : Bool
  configExists : Bool
  cfgUserKey : List Char
  cfgPublicKey : List Char
  fetchOk : Bool
  payloadPresent : Bool
  fields : HrPayloadFields
  now : Int
  sigValid : Bool

/-- Deny reasons of the script, one constructor per distinct stderr message. -/
inductive DenyReason
  | jqMissing
  | opensslMissing
  | xxdMissing
  | configNotFound
  | invalidUserKey
  | invalidPublicKey
  | signalNotFound
  | payloadMissing
  | malformedPayload
  | userKeyMismatch
  | expired (ago : Int)
  | invalidSignature
  | belowThreshold (bpm threshold : List Char)
deriving DecidableEq

/-- Exact stderr message the script prints for each deny reason. -/
def reasonMessage : DenyReason → String
  | .jqMissing => "viberunner: jq not installed — tools locked"
  | .opensslMissing => "viberunner: openssl not installed — tools locked"
  | .xxdMissing => "viberunner: xxd not installed — tools locked"
  | .configNotFound => "viberunner: config not found — tools locked"
  | .invalidUserKey => "viberunner: invalid user_key in config — tools locked"
  | .invalidPublicKey => "viberunner: invalid public_key in config — tools locked"
  | .signalNotFound => "viberunner: HR signal not found (fetch failed) — tools locked"
  | .payloadMissing => "viberunner: HR payload missing — tools locked"
  | .malformedPayload => "viberunner: malformed payload — tools locked"
  | .userKeyMismatch => "viberunner: user_key mismatch — tools locked"
  | .expired ago => "viberunner: HR signal expired " ++ toString ago ++ "s ago — tools locked"
  | .invalidSignature => "viberunner: invalid signature — tools locked"
  | .belowThreshold bpm threshold =>
      "viberunner: HR " ++ String.mk bpm ++ " below threshold " ++ String.mk threshold
        ++ " — tools locked"

/-- Result of one script run: exit 0 (allow) or exit 2 with a deny reason. -/
inductive CheckResult
  | allow
  | deny (r : DenyReason)
deriving DecidableEq

/-- Exit code of the script for a given result. -/
def exitCode : CheckResult → Nat
  | .allow => 0
  | .deny _ => 2

/-- The generated viberunner-hr-check script, check by check in source order:
required tools, config file, config values, git fetch of the signal ref,
payload presence, the eight payload fields, user_key match, expiry,
Ed25519 signature over the canonical encoding, and finally the hr_ok flag. -/
def hrCheck (env : ScriptEnv) : CheckResult :=
  if !env.jqInstalled then .deny .jqMissing
  else if !env.opensslInstalled then .deny .opensslMissing
  else if !env.xxdInstalled then .deny .xxdMissing
  else if !env.configExists then .deny .configNotFound
  else if env.cfgUserKey = [] ∨ env.cfgUserKey = nullChars then .deny .invalidUserKey
  else if env.cfgPublicKey = [] ∨ env.cfgPublicKey = nullChars then .deny .invalidPublicKey
  else if !env.fetchOk then .deny .signalNotFound
  else if !env.payloadPresent then .deny .payloadMissing
  else if env.fields.v = none ∨ env.fields.user_key = none ∨ env.fields.hr_ok = none ∨
          env.fields.bpm = none ∨ env.fields.threshold_bpm = none ∨
          env.fields.exp_unix = none ∨ env.fields.nonce = none ∨ env.fields.sig = none then
    .deny .malformedPayload
  else if env.fields.user_key.getD [] ≠ env.cfgUserKey then .deny .userKeyMismatch
  else if env.fields.exp_unix.getD 0 ≤ env.now then
    .deny (.expired (env.now - env.fields.exp_unix.getD 0))
  else if !env.sigValid then .deny .invalidSignature
  else if env.fields.hr_ok.getD [] ≠ trueChars then
    .deny (.belowThreshold (env.fields.bpm.getD []) (env.fields.threshold_bpm.getD []))
  else .allow

set_option maxHeartbeats 1000000 in
/-- C1: the verifier allows (exit 0) exactly when every check passes — tools
and config present and valid, fetch and payload present, all eight payload
fields present, payload user_key equal to the configured one, expiry
strictly in the future, signature valid over the canonical encoding, and
hr_ok true; every run is either that allow or a deny carrying a reason and
exit code 2, so no path yields allow on an error, missing value, or
unexpected value. -/
theorem hrCheck_allow_iff_all_checks (env : ScriptEnv) :
    (hrCheck env = CheckResult.allow ↔
      (env.jqInstalled = true ∧ env.opensslInstalled = true ∧ env.xxdInstalled = true ∧
       env.configExists = true ∧
       env.cfgUserKey ≠ [] ∧ env.cfgUserKey ≠ nullChars ∧
       env.cfgPublicKey ≠ [] ∧ env.cfgPublicKey ≠ nullChars ∧
       env.fetchOk = true ∧ env.payloadPresent = true ∧
       env.fields.v ≠ none ∧ env.fields.nonce ≠ none ∧
       env.fields.sig ≠ none ∧ env.fields.bpm ≠ none ∧
       env.fields.threshold_bpm ≠ none ∧
       env.fields.user_key = some env.cfgUserKey ∧
       (∃ e, env.fields.exp_unix = some e ∧ env.now < e) ∧
       env.sigValid = true ∧
       env.fields.hr_ok = some trueChars)) ∧
    (∀ r, hrCheck env = CheckResult.deny r → exitCode (hrCheck env) = 2) ∧
    (hrCheck env = CheckResult.allow → exitCode (hrCheck env) = 0) ∧
    (hrCheck env = CheckResult.allow ∨ ∃ r, hrCheck env = CheckResult.deny r) := by
  refine ⟨?_, ?_, ?_, ?_⟩
  · unfold hrCheck
    by_cases h1 : (!env.jqInstalled) = true
    · rw [if_pos h1]; simp [Bool.not_eq_true'] at h1; simp [h1]
    rw [if_neg h1]
    by_cases h2 : (!env.opensslInstalled) = true
    · rw [if_pos h2]; simp [Bool.not_eq_true'] at h2; simp [h2]
    rw [if_neg h2]
    by_cases h3 : (!env.xxdInstalled) = true
    · rw [if_pos h3]; simp [Bool.not_eq_true'] at h3; simp [h3]
    rw [if_neg h3]
    by_cases h4 : (!env.configExists) = true
    · rw [if_pos h4]; simp [Bool.not_eq_true'] at h4; simp [h4]
    rw [if_neg h4]
    by_cases h5 : env.cfgUserKey = [] ∨ env.cfgUserKey = nullChars
    · rw [if_pos h5]
      rcases h5 with h5 | h5 <;> simp [h5]
    rw [if_neg h5]
    by_cases h6 : env.cfgPublicKey = [] ∨ env.cfgPublicKey = nullChars
    · rw [if_pos h6]
      rcases h6 with h6 | h6 <;> simp [h6]
    rw [if_neg h6]
    by_cases h7 : (!env.fetchOk) = true
    · rw [if_pos h7]; simp [Bool.not_eq_true'] at h7; simp [h7]
    rw [if_neg h7]
    by_cases h8 : (!env.payloadPresent) = true
    · rw [if_pos h8]; simp [Bool.not_eq_true'] at h8; simp [h8]
    rw [if_neg h8]
    by_cases h9 : env.fields.v = none ∨ env.fields.user_key = none ∨ env.fields.hr_ok = none ∨
        env.fields.bpm = none ∨ env.fields.threshold_bpm = none ∨
        env.fields.exp_unix = none ∨ env.fields.nonce = none ∨ env.fields.sig = none
    · rw [if_pos h9]
      rcases h9 with h9 | h9 | h9 | h9 | h9 | h9 | h9 | h9 <;> simp [h9]
    rw [if_neg h9]
    push_neg at h9
    obtain ⟨hv, huk, hok, hb, ht, he, hn, hsg⟩ := h9
    rcases Option.ne_none_iff_exists'.mp huk with ⟨uku, huku⟩
    rcases Option.ne_none_iff_exists'.mp he with ⟨ev, hev⟩
    rcases Option.ne_none_iff_exists'.mp hok with ⟨okv, hokv⟩
    by_cases h10 : env.fields.user_key.getD [] ≠ env.cfgUserKey
    · rw [if_pos h10]
      rw [huku] at h10 ⊢
      simp at h10
      simp [h10]
    rw [if_neg h10]
    push_neg at h10
    by_cases h11 : env.fields.exp_unix.getD 0 ≤ env.now
    · rw [if_pos h11]
      rw [hev] at h11 ⊢
      simp at h11
      constructor
      · intro hc; cases hc
      · rintro ⟨-, -, -, -, -, -, -, -, -, -, -, -, -, -, -, -, ⟨e', he', hlt⟩, -, -⟩
        injection he' with he''
        omega
    rw [if_neg h11]
    push_neg at h11
    by_cases h12 : (!env.sigValid) = true
    · rw [if_pos h12]; simp [Bool.not_eq_true'] at h12; simp [h12]
    rw [if_neg h12]
    simp only [Bool.not_eq_true', Bool.not_eq_false] at h12
    by_cases h13 : env.fields.hr_ok.getD [] ≠ trueChars
    · rw [if_pos h13]
      rw [hokv] at h13 ⊢
      simp at h13
      constructor
      · intro hc; cases hc
      · rintro ⟨-, -, -, -, -, -, -, -, -, -, -, -, -, -, -, -, -, -, hok'⟩
        injection hok' with hok''
        exact absurd hok'' h13
    rw [if_neg h13]
    push_neg at h5 h6 h13
    simp only [Bool.not_eq_true'] at h1 h2 h3 h4 h7 h8
    simp only [ne_eq, Bool.not_eq_false] at h1 h2 h3 h4 h7 h8
    constructor
    · intro _
      refine ⟨h1, h2, h3, h4, h5.1, h5.2, h6.1, h6.2, h7, h8, hv, hn, hsg, hb, ht,
        ?_, ?_, h12, ?_⟩
      · rw [huku] at h10 ⊢
        simp only [Option.getD_some] at h10
        rw [h10]
      · refine ⟨ev, hev, ?_⟩
        rw [hev] at h11
        simpa using h11
      · rw [hokv] at h13 ⊢
        simp only [Option.getD_some] at h13
        rw [h13]
    · intro _
      rfl
  · intro r hr; rw [hr]; rfl
  · intro hr; rw [hr]; rfl
  · cases hr : hrCheck env
    · exact Or.inl rfl
    · exact Or.inr ⟨_, rfl⟩

/-- Concrete environment for the C1 witness: every check passes. -/
def envC1 : ScriptEnv :=
  { jqInstalled := true, opensslInstalled := true, xxdInstalled := true,
    configExists := true,
    cfgUserKey := ("octocat").data, cfgPublicKey := ("ab12cd").data,
    fetchOk := true, payloadPresent := true,
    fields := { v := some (("1").data), user_key := some (("octocat").data),
                hr_ok := some trueChars, bpm := some (("120").data),
                threshold_bpm := some (("100").data), exp_unix := some 100,
                nonce := some (("n1").data), sig := some (("ff00").data) },
    now := 50, sigValid := true }

/-- Witness for C1 at a concrete fully-valid environment. -/
theorem hrCheck_allow_iff_all_checks_witness :
    hrCheck envC1 = CheckResult.allow ∧ exitCode (hrCheck envC1) = 0 := by
  have h := hrCheck_allow_iff_all_checks envC1
  have hall : hrCheck envC1 = CheckResult.allow :=
    h.1.mpr ⟨rfl, rfl, rfl, rfl, by decide, by decide, by decide, by decide, rfl, rfl,
      by decide, by decide, by decide, by decide, by decide, rfl,
      ⟨100, rfl, by decide⟩, rfl, rfl⟩
  exact ⟨hall, h.2.2.1 hall⟩

/-- C2: whenever the payload parses and names the configured user but its
expiry is less than or equal to the current time, the verifier denies with
the expired reason — regardless of the hr_ok decision flag; expiry exactly
equal to now is already denied. -/
theorem hrCheck_expired_denies (env : ScriptEnv) (e : Int)
    (h1 : env.jqInstalled = true) (h2 : env.opensslInstalled = true)
    (h3 : env.xxdInstalled = true) (h4 : env.configExists = true)
    (h5 : env.cfgUserKey ≠ []) (h6 : env.cfgUserKey ≠ nullChars)
    (h7 : env.cfgPublicKey ≠ []) (h8 : env.cfgPublicKey ≠ nullChars)
    (h9 : env.fetchOk = true) (h10 : env.payloadPresent = true)
    (hv : env.fields.v ≠ none) (hn : env.fields.nonce ≠ none)
    (hs : env.fields.sig ≠ none) (hb : env.fields.bpm ≠ none)
    (ht : env.fields.threshold_bpm ≠ none)
    (hok : env.fields.hr_ok ≠ none)
    (huk : env.fields.user_key = some env.cfgUserKey)
    (he : env.fields.exp_unix = some e)
    (hexp : e ≤ env.now) :
    hrCheck env = CheckResult.deny (DenyReason.expired (env.now - e)) := by
  unfold hrCheck
  rw [if_neg (by simp [h1]), if_neg (by simp [h2]), if_neg (by simp [h3]),
      if_neg (by simp [h4]),
      if_neg (by push_neg; exact ⟨h5, h6⟩), if_neg (by push_neg; exact ⟨h7, h8⟩),
      if_neg (by simp [h9]), if_neg (by simp [h10]),
      if_neg (by
        push_neg
        exact ⟨hv, by rw [huk]; exact Option.some_ne_none _, hok, hb, ht,
               by rw [he]; exact Option.some_ne_none _, hn, hs⟩),
      if_neg (by rw [huk]; simp),
      if_pos (by rw [he]; simpa using hexp)]
  rw [he]
  simp

/-- Concrete environment for the C2 witness: expiry exactly equal to now,
valid signature, hr_ok true. -/
def envC2 : ScriptEnv :=
  { jqInstalled := true, opensslInstalled := true, xxdInstalled := true,
    configExists := true,
    cfgUserKey := ("octocat").data, cfgPublicKey := ("ab12cd").data,
    fetchOk := true, payloadPresent := true,
    fields := { v := some (("1").data), user_key := some (("octocat").data),
                hr_ok := some trueChars, bpm := some (("120").data),
                threshold_bpm := some (("100").data), exp_unix := some 50,
                nonce := some (("n1").data), sig := some (("ff00").data) },
    now := 50, sigValid := true }

/-- Witness for C2: a token expiring exactly now, with hr_ok true, is denied
as expired. -/
theorem hrCheck_expired_denies_witness :
    hrCheck envC2 = CheckResult.deny (DenyReason.expired 0) := by
  have h := hrCheck_expired_denies envC2 50 rfl rfl rfl rfl
    (by decide) (by decide) (by decide) (by decide) rfl rfl
    (by decide) (by decide) (by decide) (by decide) (by decide) (by decide)
    rfl rfl (by decide)
  simpa using h

/-- C3: a payload whose hr_ok decision flag is false is denied with the
below-threshold reason even when the user key matches, the expiry is
strictly in the future, and the signature verifies. -/
theorem hrCheck_hrok_false_denies (env : ScriptEnv) (e : Int) (b t : List Char)
    (h1 : env.jqInstalled = true) (h2 : env.opensslInstalled = true)
    (h3 : env.xxdInstalled = true) (h4 : env.configExists = true)
    (h5 : env.cfgUserKey ≠ []) (h6 : env.cfgUserKey ≠ nullChars)
    (h7 : env.cfgPublicKey ≠ []) (h8 : env.cfgPublicKey ≠ nullChars)
    (h9 : env.fetchOk = true) (h10 : env.payloadPresent = true)
    (hv : env.fields.v ≠ none) (hn : env.fields.nonce ≠ none)
    (hs : env.fields.sig ≠ none)
    (hb : env.fields.bpm = some b)
    (ht : env.fields.threshold_bpm = some t)
    (hok : env.fields.hr_ok = some falseChars)
    (huk : env.fields.user_key = some env.cfgUserKey)
    (he : env.fields.exp_unix = some e)
    (hexp : env.now < e)
    (hsv : env.sigValid = true) :
    hrCheck env = CheckResult.deny (DenyReason.belowThreshold b t) := by
  unfold hrCheck
  rw [if_neg (by simp [h1]), if_neg (by simp [h2]), if_neg (by simp [h3]),
      if_neg (by simp [h4]),
      if_neg (by push_neg; exact ⟨h5, h6⟩), if_neg (by push_neg; exact ⟨h7, h8⟩),
      if_neg (by simp [h9]), if_neg (by simp [h10]),
      if_neg (by
        push_neg
        exact ⟨hv, by rw [huk]; exact Option.some_ne_none _,
               by rw [hok]; exact Option.some_ne_none _,
               by rw [hb]; exact Option.some_ne_none _,
               by rw [ht]; exact Option.some_ne_none _,
               by rw [he]; exact Option.some_ne_none _, hn, hs⟩),
      if_neg (by rw [huk]; simp),
      if_neg (by rw [he]; simpa using not_le.mpr hexp),
      if_neg (by simp [hsv]),
      if_pos (by rw [hok]; decide)]
  rw [hb, ht]
  simp

/-- Concrete environment for the C3 witness: everything valid except a false
hr_ok decision flag. -/
def envC3 : ScriptEnv :=
  { jqInstalled := true, opensslInstalled := true, xxdInstalled := true,
    configExists := true,
    cfgUserKey := ("octocat").data, cfgPublicKey := ("ab12cd").data,
    fetchOk := true, payloadPresent := true,
    fields := { v := some (("1").data), user_key := some (("octocat").data),
                hr_ok := some falseChars, bpm := some (("80").data),
                threshold_bpm := some (("100").data), exp_unix := some 100,
                nonce := some (("n1").data), sig := some (("ff00").data) },
    now := 50, sigValid := true }

/-- Witness for C3: an otherwise fully valid token with hr_ok false is
denied as below threshold. -/
theorem hrCheck_hrok_false_denies_witness :
    hrCheck envC3 = CheckResult.deny
      (DenyReason.belowThreshold (("80").data) (("100").data)) :=
  hrCheck_hrok_false_denies envC3 100 (("80").data) (("100").data)
    rfl rfl rfl rfl (by decide) (by decide) (by decide) (by decide) rfl rfl
    (by decide) (by decide) (by decide) rfl rfl rfl rfl rfl (by decide) rfl

/-- C4: a payload whose user_key differs from the configured one is denied
with the user_key-mismatch reason even when the payload is otherwise
completely valid — unexpired, correctly signed, hr_ok true. -/
theorem hrCheck_user_key_mismatch_denies (env : ScriptEnv) (u : List Char) (e : Int)
    (h1 : env.jqInstalled = true) (h2 : env.opensslInstalled = true)
    (h3 : env.xxdInstalled = true) (h4 : env.configExists = true)
    (h5 : env.cfgUserKey ≠ []) (h6 : env.cfgUserKey ≠ nullChars)
    (h7 : env.cfgPublicKey ≠ []) (h8 : env.cfgPublicKey ≠ nullChars)
    (h9 : env.fetchOk = true) (h10 : env.payloadPresent = true)
    (hv : env.fields.v ≠ none) (hn : env.fields.nonce ≠ none)
    (hs : env.fields.sig ≠ none) (hb : env.fields.bpm ≠ none)
    (ht : env.fields.threshold_bpm ≠ none)
    (hok : env.fields.hr_ok = some trueChars)
    (huk : env.fields.user_key = some u)
    (hne : u ≠ env.cfgUserKey)
    (he : env.fields.exp_unix = some e)
    (hexp : env.now < e)
    (hsv : env.sigValid = true) :
    hrCheck env = CheckResult.deny DenyReason.userKeyMismatch := by
  unfold hrCheck
  rw [if_neg (by simp [h1]), if_neg (by simp [h2]), if_neg (by simp [h3]),
      if_neg (by simp [h4]),
      if_neg (by push_neg; exact ⟨h5, h6⟩), if_neg (by push_neg; exact ⟨h7, h8⟩),
      if_neg (by simp [h9]), if_neg (by simp [h10]),
      if_neg (by
        push_neg
        exact ⟨hv, by rw [huk]; exact Option.some_ne_none _,
               by rw [hok]; exact Option.some_ne_none _, hb, ht,
               by rw [he]; exact Option.some_ne_none _, hn, hs⟩),
      if_pos (by rw [huk]; simpa using hne)]

/-- Concrete environment for the C4 witness: a fully valid token issued for
a different user key. -/
def envC4 : ScriptEnv :=
  { jqInstalled := true, opensslInstalled := true, xxdInstalled := true,
    configExists := true,
    cfgUserKey := ("octocat").data, cfgPublicKey := ("ab12cd").data,
    fetchOk := true, payloadPresent := true,
    fields := { v := some (("1").data), user_key := some (("mallory").data),
                hr_ok := some trueChars, bpm := some (("120").data),
                threshold_bpm := some (("100").data), exp_unix := some 100,
                nonce := some (("n1").data), sig := some (("ff00").data) },
    now := 50, sigValid := true }

/-- Witness for C4: an otherwise valid token for a different user key is
denied as a user_key mismatch. -/
theorem hrCheck_user_key_mismatch_denies_witness :
    hrCheck envC4 = CheckResult.deny DenyReason.userKeyMismatch :=
  hrCheck_user_key_mismatch_denies envC4 (("mallory").data) 100
    rfl rfl rfl rfl (by decide) (by decide) (by decide) (by decide) rfl rfl
    (by decide) (by decide) (by decide) (by decide) (by decide) rfl rfl
    (by decide) rfl (by decide) rfl

/- ===================== Run state machine embedding ===================== -/

/-- User run state, as declared in packages/shared/src/types.ts. -/
inductive RunState
  | NOT_RUNNING
  | RUNNING_UNLOCKED
  | RUNNING_LOCKED
deriving DecidableEq

/-- Configuration of the state machine (StateMachineConfig).  The heartbeat
timeout only drives the asynchronous staleness interval, carried for
completeness. -/
structure StateMachineConfig where
  paceThreshold : ℚ
  hysteresisBuffer : ℚ
  consecutiveReadingsRequired : ℕ
  heartbeatTimeout : ℚ
deriving DecidableEq

/-- Mutable fields of RunStateMachine that updatePace reads or writes.  The
listener set and the wall-clock heartbeat bookkeeping are omitted: the state
transitions of updatePace do not depend on them. -/
structure RunStateMachine where
  currentState : RunState
  lastPace : Option ℚ
  consecutiveFastReadings : ℕ
  consecutiveSlowReadings : ℕ
deriving DecidableEq

/-- A freshly constructed machine: NOT_RUNNING with zeroed counters. -/
def RunStateMachine.initial : RunStateMachine :=
  ⟨RunState.NOT_RUNNING, none, 0, 0⟩

/-- RunStateMachine.startRun: no-op unless NOT_RUNNING; otherwise enters
RUNNING_LOCKED with cleared counters (must prove pace before unlocking). -/
def RunStateMachine.startRun (m : RunStateMachine) : RunStateMachine :=
  if m.currentState ≠ RunState.NOT_RUNNING then m
  else { m with currentState := RunState.RUNNING_LOCKED,
                consecutiveFastReadings := 0, consecutiveSlowReadings := 0 }

/-- RunStateMachine.updatePace: counts consecutive fast readings (pace
strictly below threshold minus buffer) and consecutive slow readings (pace
strictly above threshold plus buffer), resets both counters inside the
hysteresis zone, and flips LOCKED to UNLOCKED (or UNLOCKED to LOCKED) once
the corresponding counter reaches consecutiveReadingsRequired, zeroing that
counter on the flip. -/
def RunStateMachine.updatePace (cfg : StateMachineConfig) (m : RunStateMachine)
    (pace : ℚ) : RunStateMachine :=
  if m.currentState = RunState.NOT_RUNNING then m
  else
    let lockThreshold := cfg.paceThreshold - cfg.hysteresisBuffer
    let unlockThreshold := cfg.paceThreshold + cfg.hysteresisBuffer
    let fast : ℕ := if pace < lockThreshold then m.consecutiveFastReadings + 1 else 0
    let slow : ℕ :=
      if pace < lockThreshold then 0
      else if pace > unlockThreshold then m.consecutiveSlowReadings + 1
      else 0
    let m1 : RunStateMachine :=
      { m with lastPace := some pace,
               consecutiveFastReadings := fast, consecutiveSlowReadings := slow }
    if m1.currentState = RunState.RUNNING_LOCKED ∧
        cfg.consecutiveReadingsRequired ≤ fast then
      { m1 with currentState := RunState.RUNNING_UNLOCKED,
                consecutiveFastReadings := 0 }
    else if m1.currentState = RunState.RUNNING_UNLOCKED ∧
        cfg.consecutiveReadingsRequired ≤ slow then
      { m1 with currentState := RunState.RUNNING_LOCKED,
                consecutiveSlowReadings := 0 }
    else m1

/-- C6: with threshold 600, buffer 15, two consecutive readings required,
pace readings 500, 500 from a fresh run leave the machine RUNNING_LOCKED
after the first reading and RUNNING_UNLOCKED exactly after the second; in
general, from RUNNING_LOCKED one updatePace step unlocks exactly when the
reading is faster than threshold minus buffer and it completes the required
count of consecutive fast readings. -/
theorem updatePace_unlock_after_k_fast_readings :
    (((RunStateMachine.updatePace ⟨600, 15, 2, 30000⟩
        (RunStateMachine.initial.startRun) 500).currentState
      = RunState.RUNNING_LOCKED) ∧
     ((RunStateMachine.updatePace ⟨600, 15, 2, 30000⟩
        (RunStateMachine.updatePace ⟨600, 15, 2, 30000⟩
          (RunStateMachine.initial.startRun) 500) 500).currentState
      = RunState.RUNNING_UNLOCKED)) ∧
    (∀ (cfg : StateMachineConfig) (m : RunStateMachine) (pace : ℚ),
      1 ≤ cfg.consecutiveReadingsRequired →
      m.currentState = RunState.RUNNING_LOCKED →
      ((RunStateMachine.updatePace cfg m pace).currentState
          = RunState.RUNNING_UNLOCKED ↔
        (pace < cfg.paceThreshold - cfg.hysteresisBuffer ∧
         cfg.consecutiveReadingsRequired ≤ m.consecutiveFastReadings + 1))) := by
  constructor
  · norm_num [RunStateMachine.updatePace, RunStateMachine.startRun,
      RunStateMachine.initial]
    simp
  · intro cfg m pace hK hlocked
    simp only [RunStateMachine.updatePace, hlocked]
    split_ifs with h1 h2 h3 h4 h5 h6 h7 <;> simp_all

/-- Witness for C6's general part at threshold 600, buffer 15, K equal 2,
from RUNNING_LOCKED with one fast reading already counted. -/
theorem updatePace_unlock_after_k_fast_readings_witness :
    (RunStateMachine.updatePace ⟨600, 15, 2, 30000⟩
        ⟨RunState.RUNNING_LOCKED, none, 1, 0⟩ 500).currentState
      = RunState.RUNNING_UNLOCKED ↔
    ((500 : ℚ) < 600 - 15 ∧ 2 ≤ 1 + 1) :=
  updatePace_unlock_after_k_fast_readings.2 ⟨600, 15, 2, 30000⟩
    ⟨RunState.RUNNING_LOCKED, none, 1, 0⟩ 500 (by norm_num) rfl

/-- From RUNNING_UNLOCKED, a reading strictly above threshold plus buffer
(with a nonnegative buffer) increments the slow counter and relocks exactly
when that counter reaches consecutiveReadingsRequired. -/
lemma updatePace_unlocked_slow_step (cfg : StateMachineConfig) (m : RunStateMachine)
    (pace : ℚ) (hbuf : 0 ≤ cfg.hysteresisBuffer)
    (hpace : cfg.paceThreshold + cfg.hysteresisBuffer < pace)
    (hun : m.currentState = RunState.RUNNING_UNLOCKED) :
    RunStateMachine.updatePace cfg m pace =
      if cfg.consecutiveReadingsRequired ≤ m.consecutiveSlowReadings + 1 then
        { currentState := RunState.RUNNING_LOCKED, lastPace := some pace,
          consecutiveFastReadings := 0, consecutiveSlowReadings := 0 }
      else
        { currentState := RunState.RUNNING_UNLOCKED, lastPace := some pace,
          consecutiveFastReadings := 0,
          consecutiveSlowReadings := m.consecutiveSlowReadings + 1 } := by
  have hnotfast : ¬ pace < cfg.paceThreshold - cfg.hysteresisBuffer := by
    push_neg
    linarith
  simp only [RunStateMachine.updatePace, hun]
  split_ifs <;> simp_all

/-- Iterating slow readings from RUNNING_UNLOCKED: while the accumulated
slow counter stays below consecutiveReadingsRequired the state remains
RUNNING_UNLOCKED and the counter counts the readings. -/
lemma updatePace_slow_iterate (cfg : StateMachineConfig) (pace : ℚ)
    (hbuf : 0 ≤ cfg.hysteresisBuffer)
    (hpace : cfg.paceThreshold + cfg.hysteresisBuffer < pace) :
    ∀ (n : ℕ) (m : RunStateMachine), m.currentState = RunState.RUNNING_UNLOCKED →
      m.consecutiveSlowReadings + n < cfg.consecutiveReadingsRequired →
      ((fun mm => RunStateMachine.updatePace cfg mm pace)^[n] m).currentState
          = RunState.RUNNING_UNLOCKED ∧
      ((fun mm => RunStateMachine.updatePace cfg mm pace)^[n] m).consecutiveSlowReadings
          = m.consecutiveSlowReadings + n := by
  intro n
  induction n with
  | zero =>
    intro m hm hlt
    simpa using hm
  | succ k ih =>
    intro m hm hlt
    have hstep := updatePace_unlocked_slow_step cfg m pace hbuf hpace hm
    rw [if_neg (by omega)] at hstep
    rw [Function.iterate_succ_apply, hstep]
    obtain ⟨ha, hb⟩ := ih
      { currentState := RunState.RUNNING_UNLOCKED, lastPace := some pace,
        consecutiveFastReadings := 0,
        consecutiveSlowReadings := m.consecutiveSlowReadings + 1 } rfl
      (show m.consecutiveSlowReadings + 1 + k < cfg.consecutiveReadingsRequired by omega)
    refine ⟨ha, ?_⟩
    rw [hb]
    show m.consecutiveSlowReadings + 1 + k = m.consecutiveSlowReadings + (k + 1)
    omega

/-- C7: once RUNNING_UNLOCKED with no slow readings accumulated, one reading
exceeding threshold plus buffer never relocks when more than one consecutive
reading is required; and with a nonnegative buffer, iterating such readings
keeps the state RUNNING_UNLOCKED strictly below the required count and flips
it to RUNNING_LOCKED exactly at the required count. -/
theorem updatePace_no_immediate_relock :
    (∀ (cfg : StateMachineConfig) (m : RunStateMachine) (pace : ℚ),
      m.currentState = RunState.RUNNING_UNLOCKED →
      m.consecutiveSlowReadings = 0 →
      1 < cfg.consecutiveReadingsRequired →
      cfg.paceThreshold + cfg.hysteresisBuffer < pace →
      (RunStateMachine.updatePace cfg m pace).currentState
        = RunState.RUNNING_UNLOCKED) ∧
    (∀ (cfg : StateMachineConfig) (m : RunStateMachine) (pace : ℚ) (n : ℕ),
      0 ≤ cfg.hysteresisBuffer →
      cfg.paceThreshold + cfg.hysteresisBuffer < pace →
      m.currentState = RunState.RUNNING_UNLOCKED →
      m.consecutiveSlowReadings = 0 →
      1 ≤ cfg.consecutiveReadingsRequired →
      (n < cfg.consecutiveReadingsRequired →
        ((fun mm => RunStateMachine.updatePace cfg mm pace)^[n] m).currentState
          = RunState.RUNNING_UNLOCKED) ∧
      ((fun mm =>
          RunStateMachine.updatePace cfg mm pace)^[cfg.consecutiveReadingsRequired]
            m).currentState
        = RunState.RUNNING_LOCKED) := by
  constructor
  · intro cfg m pace hun hs0 hK hpace
    simp only [RunStateMachine.updatePace, hun]
    split_ifs <;> simp_all <;> omega
  · intro cfg m pace n hbuf hpace hun hs0 hK
    constructor
    · intro hn
      exact (updatePace_slow_iterate cfg pace hbuf hpace n m hun (by omega)).1
    · obtain ⟨j, hj⟩ : ∃ j, cfg.consecutiveReadingsRequired = j + 1 :=
        ⟨cfg.consecutiveReadingsRequired - 1, by omega⟩
      rw [hj, Function.iterate_succ_apply']
      obtain ⟨ha, hb⟩ := updatePace_slow_iterate cfg pace hbuf hpace j m hun (by omega)
      have hstep := updatePace_unlocked_slow_step cfg _ pace hbuf hpace ha
      rw [if_pos (by rw [hb]; omega)] at hstep
      rw [hstep]

/-- Witness for C7 with threshold 600, buffer 15, K equal 2: one slow
reading of 650 keeps the state RUNNING_UNLOCKED, and two consecutive slow
readings relock. -/
theorem updatePace_no_immediate_relock_witness :
    ((RunStateMachine.updatePace ⟨600, 15, 2, 30000⟩
        ⟨RunState.RUNNING_UNLOCKED, none, 0, 0⟩ 650).currentState
      = RunState.RUNNING_UNLOCKED) ∧
    (((fun mm => RunStateMachine.updatePace ⟨600, 15, 2, 30000⟩ mm 650)^[2]
        ⟨RunState.RUNNING_UNLOCKED, none, 0, 0⟩).currentState
      = RunState.RUNNING_LOCKED) :=
  ⟨updatePace_no_immediate_relock.1 ⟨600, 15, 2, 30000⟩
      ⟨RunState.RUNNING_UNLOCKED, none, 0, 0⟩ 650 rfl rfl (by norm_num) (by norm_num),
   (updatePace_no_immediate_relock.2 ⟨600, 15, 2, 30000⟩
      ⟨RunState.RUNNING_UNLOCKED, none, 0, 0⟩ 650 1 (by norm_num) (by norm_num)
      rfl rfl (by norm_num)).2⟩

/- ===================== Pace calculator embedding ===================== -/

/-- Meters per mile conversion constant (1609.344). -/
def METERS_PER_MILE : ℚ := 1609344 / 1000

/-- speedToPace: pace in seconds per mile for a speed in meters per second;
none models the JavaScript Infinity returned for a nonpositive speed. -/
def speedToPace (speedMs : ℚ) : Option ℚ :=
  if speedMs ≤ 0 then none else some (METERS_PER_MILE / speedMs)

/-- paceToSpeed: speed in meters per second for a pace in seconds per mile;
a none input models a non-finite JavaScript number, mapped to 0 exactly like
a nonpositive pace. -/
def paceToSpeed : Option ℚ → ℚ
  | none => 0
  | some paceSeconds => if paceSeconds ≤ 0 then 0 else METERS_PER_MILE / paceSeconds

/-- Configuration of the pace calculator (PaceCalculatorConfig). -/
structure PaceCalculatorConfig where
  windowSize : ℕ
  minDistanceThreshold : ℚ
  maxTimeGap : ℚ
  minMovingSpeed : ℚ
  maxRealisticSpeed : ℚ

/-- A GPS location sample; the timestamp is in milliseconds. -/
structure LocationSample where
  latitude : ℚ
  longitude : ℚ
  timestamp : ℚ
deriving DecidableEq

/-- A speed segment between two consecutive accepted samples. -/
structure SpeedSegment where
  speed : ℚ
  distance : ℚ
  duration : ℚ
  timestamp : ℚ
deriving DecidableEq

/-- Mutable state of PaceCalculator. -/
structure PaceCalculator where
  samples : List LocationSample
  speedSegments : List SpeedSegment
  totalDistance : ℚ
deriving DecidableEq

/-- Dropping elements from the front while the list is longer than k — the
shift loops that bound the sample and segment buffers in addSample. -/
def trimFront {α : Type} (k : ℕ) (l : List α) : List α := l.drop (l.length - k)

/-- PaceCalculator.getCurrentPace: distance-weighted average speed over the
window, none when the window is empty, degenerate, or slower than the
minimum moving speed. -/
def PaceCalculator.getCurrentPace (cfg : PaceCalculatorConfig)
    (st : PaceCalculator) : Option ℚ :=
  if st.speedSegments = [] then none
  else
    let totalWeightedSpeed := (st.speedSegments.map (fun s => s.speed * s.distance)).sum
    let totalDistance := (st.speedSegments.map (fun s => s.distance)).sum
    if totalDistance = 0 then none
    else
      let avgSpeed := totalWeightedSpeed / totalDistance
      if avgSpeed < cfg.minMovingSpeed then none
      else speedToPace avgSpeed

/-- PaceCalculator.addSample, with the haversine distance supplied as a
function parameter: the source computes it with a trigonometric formula
over real numbers, and every property proved here holds for an arbitrary
distance function.  Mirrors the source statement by statement, including
the quirk that the captured last sample is still used for the segment
computation after a max-time-gap reset. -/
def PaceCalculator.addSample (hav : LocationSample → LocationSample → ℚ)
    (cfg : PaceCalculatorConfig) (st : PaceCalculator) (s : LocationSample) :
    PaceCalculator × Option ℚ :=
  let last? := st.samples.getLast?
  let st1 : PaceCalculator :=
    match last? with
    | some lastSample =>
        if cfg.maxTimeGap < s.timestamp - lastSample.timestamp then
          ⟨[], [], 0⟩
        else st
    | none => st
  let st2 : PaceCalculator :=
    match last? with
    | some lastSample =>
        let distance := hav lastSample s
        let duration := (s.timestamp - lastSample.timestamp) / 1000
        if cfg.minDistanceThreshold ≤ distance ∧ 0 < duration then
          let speed := distance / duration
          if speed ≤ cfg.maxRealisticSpeed then
            { samples := st1.samples,
              speedSegments :=
                trimFront cfg.windowSize
                  (st1.speedSegments ++ [⟨speed, distance, duration, s.timestamp⟩]),
              totalDistance := st1.totalDistance + distance }
          else st1
        else st1
    | none => st1
  let st3 := { st2 with samples := trimFront (cfg.windowSize + 1) (st2.samples ++ [s]) }
  (st3, st3.getCurrentPace cfg)

/-- The smoothed pace only reads the speed-segment window. -/
lemma getCurrentPace_congr (cfg : PaceCalculatorConfig) (a b : PaceCalculator)
    (h : a.speedSegments = b.speedSegments) :
    a.getCurrentPace cfg = b.getCurrentPace cfg := by
  simp only [PaceCalculator.getCurrentPace, h]

/-- C9: a new GPS sample whose implied instantaneous speed exceeds
maxRealisticSpeed adds no speed segment: the window, the total distance and
the pace returned by getCurrentPace are exactly what they were before the
sample. -/
theorem addSample_rejects_unrealistic_speed
    (hav : LocationSample → LocationSample → ℚ) (cfg : PaceCalculatorConfig)
    (st : PaceCalculator) (s lastSample : LocationSample)
    (hlast : st.samples.getLast? = some lastSample)
    (hgap : s.timestamp - lastSample.timestamp ≤ cfg.maxTimeGap)
    (hfast : cfg.maxRealisticSpeed <
      hav lastSample s / ((s.timestamp - lastSample.timestamp) / 1000)) :
    (st.addSample hav cfg s).1.speedSegments = st.speedSegments ∧
    (st.addSample hav cfg s).1.totalDistance = st.totalDistance ∧
    (st.addSample hav cfg s).2 = st.getCurrentPace cfg := by
  have hnogap : ¬ cfg.maxTimeGap < s.timestamp - lastSample.timestamp := not_lt.mpr hgap
  have hnotok : ¬ hav lastSample s / ((s.timestamp - lastSample.timestamp) / 1000)
      ≤ cfg.maxRealisticSpeed := not_le.mpr hfast
  simp only [PaceCalculator.addSample, hlast, hnogap, if_false, if_neg hnogap]
  by_cases hcond : cfg.minDistanceThreshold ≤ hav lastSample s ∧
      0 < (s.timestamp - lastSample.timestamp) / 1000
  · rw [if_pos hcond, if_neg hnotok]
    exact ⟨rfl, rfl, getCurrentPace_congr cfg _ st rfl⟩
  · rw [if_neg hcond]
    exact ⟨rfl, rfl, getCurrentPace_congr cfg _ st rfl⟩

/-- C10: speedToPace and paceToSpeed are mutually inverse on positive
inputs, both being METERS_PER_MILE divided by their argument. -/
theorem speedToPace_paceToSpeed_inverse :
    (∀ s : ℚ, 0 < s → paceToSpeed (speedToPace s) = s) ∧
    (∀ p : ℚ, 0 < p → speedToPace (paceToSpeed (some p)) = some p) := by
  have hM : (0 : ℚ) < METERS_PER_MILE := by norm_num [METERS_PER_MILE]
  constructor
  · intro s hs
    simp only [speedToPace]
    rw [if_neg (not_le.mpr hs)]
    simp only [paceToSpeed]
    rw [if_neg (not_le.mpr (div_pos hM hs))]
    field_simp
  · intro p hp
    simp only [paceToSpeed]
    rw [if_neg (not_le.mpr hp)]
    simp only [speedToPace]
    rw [if_neg (not_le.mpr (div_pos hM hp))]
    congr 1
    field_simp

/-- Witness for C10 at speed 2 meters per second and pace 600 seconds per
mile. -/
theorem speedToPace_paceToSpeed_inverse_witness :
    paceToSpeed (speedToPace 2) = 2 ∧
    speedToPace (paceToSpeed (some 600)) = some 600 :=
  ⟨speedToPace_paceToSpeed_inverse.1 2 (by norm_num),
   speedToPace_paceToSpeed_inverse.2 600 (by norm_num)⟩

/-- Witness for C9: a sample 1000 milliseconds after the previous one at
haversine distance 100 meters implies 100 meters per second, far above the
bound of 10, and changes nothing. -/
theorem addSample_rejects_unrealistic_speed_witness :
    ((PaceCalculator.addSample (fun _ _ => 100) ⟨5, 5, 10000, 1 / 2, 10⟩
        ⟨[⟨0, 0, 0⟩], [⟨2, 50, 25, 0⟩], 50⟩ ⟨1, 1, 1000⟩).1.speedSegments
      = [⟨2, 50, 25, 0⟩]) ∧
    ((PaceCalculator.addSample (fun _ _ => 100) ⟨5, 5, 10000, 1 / 2, 10⟩
        ⟨[⟨0, 0, 0⟩], [⟨2, 50, 25, 0⟩], 50⟩ ⟨1, 1, 1000⟩).1.totalDistance = 50) ∧
    ((PaceCalculator.addSample (fun _ _ => 100) ⟨5, 5, 10000, 1 / 2, 10⟩
        ⟨[⟨0, 0, 0⟩], [⟨2, 50, 25, 0⟩], 50⟩ ⟨1, 1, 1000⟩).2
      = PaceCalculator.getCurrentPace ⟨5, 5, 10000, 1 / 2, 10⟩
          ⟨[⟨0, 0, 0⟩], [⟨2, 50, 25, 0⟩], 50⟩) :=
  addSample_rejects_unrealistic_speed (fun _ _ => 100) ⟨5, 5, 10000, 1 / 2, 10⟩
    ⟨[⟨0, 0, 0⟩], [⟨2, 50, 25, 0⟩], 50⟩ ⟨1, 1, 1000⟩ ⟨0, 0, 0⟩ rfl
    (by norm_num) (by norm_num)

/- ===================== Debounced publisher embedding ===================== -/

/-- Per-user row of the hr_status table as touched by the debounce claim in
updateSessionSignalRefs; the timestamp is in seconds. -/
structure HrStatusRow where
  lastSignalRefUpdateAt : Option ℚ
deriving DecidableEq

/-- A gate repo row returned by the gateRepo query, already filtered to the
user, the active flag, the session, and an installed GitHub App. -/
structure GateRepoRow where
  owner : List Char
  name : List Char
  signalRef : List Char
  userKey : List Char
deriving DecidableEq

/-- Observable side effects of one updateSessionSignalRefs call: whether a
signed payload was built and which repos had their signal ref written. -/
structure PublishEffects where
  payloadBuilt : Bool
  refWrites : List GateRepoRow
deriving DecidableEq

/-- The no-side-effect outcome. -/
def PublishEffects.noEffects : PublishEffects := ⟨false, []⟩

/-- updateSessionSignalRefs (services/api/src/lib/hr-signal.ts): the atomic
UPDATE claims the debounce slot only when the stored timestamp is NULL or
more than one second before now; a failed claim returns immediately with no
payload built and no ref writes; a successful claim stamps now, queries the
gate repos, and — when any exist — builds one signed payload and writes each
repo's signal ref. -/
def updateSessionSignalRefs (now : ℚ) (row : HrStatusRow)
    (gateRepos : List GateRepoRow) : HrStatusRow × PublishEffects :=
  let claimed : Bool :=
    match row.lastSignalRefUpdateAt with
    | none => true
    | some t => decide (t < now - 1)
  if !claimed then (row, PublishEffects.noEffects)
  else
    let row' : HrStatusRow := ⟨some now⟩
    if gateRepos = [] then (row', PublishEffects.noEffects)
    else (row', ⟨true, gateRepos⟩)

/-- C8: a publish attempt whose stored last_signal_ref_update_at is within
the one-second debounce interval fails the atomic claim and returns with no
side effects — no payload is built, no ref is written, and the row is
unchanged; consequently the second of two publishes within one interval is
a no-op. -/
theorem updateSessionSignalRefs_debounce_noop :
    (∀ (now t : ℚ) (row : HrStatusRow) (repos : List GateRepoRow),
      row.lastSignalRefUpdateAt = some t → now - t ≤ 1 →
      updateSessionSignalRefs now row repos = (row, PublishEffects.noEffects)) ∧
    (∀ (now1 now2 : ℚ) (row : HrStatusRow) (repos repos2 : List GateRepoRow),
      (row.lastSignalRefUpdateAt = none ∨
        ∃ t, row.lastSignalRefUpdateAt = some t ∧ t < now1 - 1) →
      now2 - now1 ≤ 1 →
      updateSessionSignalRefs now2 (updateSessionSignalRefs now1 row repos).1 repos2
        = ((updateSessionSignalRefs now1 row repos).1, PublishEffects.noEffects)) := by
  have step1 : ∀ (now t : ℚ) (row : HrStatusRow) (repos : List GateRepoRow),
      row.lastSignalRefUpdateAt = some t → now - t ≤ 1 →
      updateSessionSignalRefs now row repos = (row, PublishEffects.noEffects) := by
    intro now t row repos hrow hle
    have hnc : ¬ (t < now - 1) := by linarith
    simp [updateSessionSignalRefs, hrow, hnc]
  refine ⟨step1, ?_⟩
  intro now1 now2 row repos repos2 hclaim hle
  have h1 : (updateSessionSignalRefs now1 row repos).1 = ⟨some now1⟩ := by
    rcases hclaim with h | ⟨t, ht, hlt⟩
    · by_cases hre : repos = [] <;> simp [updateSessionSignalRefs, h, hre]
    · by_cases hre : repos = [] <;> simp [updateSessionSignalRefs, ht, hlt, hre]
  rw [h1]
  exact step1 now2 now1 ⟨some now1⟩ repos2 rfl (by linarith)

/-- Witness for C8: an attempt half a second after the last stamp is a
no-op, and so is the second of two attempts half a second apart. -/
theorem updateSessionSignalRefs_debounce_noop_witness :
    (updateSessionSignalRefs 10 ⟨some (19 / 2)⟩ [⟨[], [], [], []⟩]
      = (⟨some (19 / 2)⟩, PublishEffects.noEffects)) ∧
    (updateSessionSignalRefs (11 / 2)
        (updateSessionSignalRefs 5 ⟨none⟩ [⟨[], [], [], []⟩]).1 [⟨[], [], [], []⟩]
      = ((updateSessionSignalRefs 5 ⟨none⟩ [⟨[], [], [], []⟩]).1,
         PublishEffects.noEffects)) :=
  ⟨updateSessionSignalRefs_debounce_noop.1 10 (19 / 2) ⟨some (19 / 2)⟩
      [⟨[], [], [], []⟩] rfl (by norm_num),
   updateSessionSignalRefs_debounce_noop.2 5 (11 / 2) ⟨none⟩
      [⟨[], [], [], []⟩] [⟨[], [], [], []⟩] (Or.inl rfl) (by norm_num)⟩

/- ============== Canonical encoding and signature model ============== -/

/-- The seven non-signature payload fields in serialized text form, as they
appear inside the canonical JSON produced with jq -cS: numbers and booleans
as bare literals, nonce and user_key as the contents of string literals. -/
structure CanonFields where
  bpmS : List Char
  expUnixS : List Char
  hrOkS : List Char
  nonceS : List Char
  thresholdBpmS : List Char
  userKeyS : List Char
  vS : List Char
deriving DecidableEq

/-- The canonical signing message: the key-sorted, whitespace-free JSON
object over bpm, exp_unix, hr_ok, nonce, threshold_bpm, user_key, v that
both the issuer and the verifier script serialize. -/
def canonicalEncode (p : CanonFields) : List Char :=
  ("\x7b\"bpm\":").data ++ p.bpmS ++
  (",\"exp_unix\":").data ++ p.expUnixS ++
  (",\"hr_ok\":").data ++ p.hrOkS ++
  (",\"nonce\":\"").data ++ p.nonceS ++
  ("\",\"threshold_bpm\":").data ++ p.thresholdBpmS ++
  (",\"user_key\":\"").data ++ p.userKeyS ++
  ("\",\"v\":").data ++ p.vS ++
  ("\x7d").data

/-- Serialized fields that do not collide with their JSON delimiters: bare
literals contain no comma (and the version literal no closing brace), and
string contents contain no quote. -/
def wfCanon (p : CanonFields) : Prop :=
  (',' ∉ p.bpmS) ∧ (',' ∉ p.expUnixS) ∧ (',' ∉ p.hrOkS) ∧
  ('\"' ∉ p.nonceS) ∧ (',' ∉ p.thresholdBpmS) ∧ ('\"' ∉ p.userKeyS) ∧
  ('\x7d' ∉ p.vS)

/-- Splitting an append at a delimiter character absent from both prefixes
identifies the prefixes and the suffixes. -/
lemma append_eq_of_delim {d : Char} :
    ∀ {x x' : List Char} {r r' : List Char}, d ∉ x → d ∉ x' →
      x ++ d :: r = x' ++ d :: r' → x = x' ∧ r = r' := by
  intro x
  induction x with
  | nil =>
    intro x' r r' _ hx' h
    cases x' with
    | nil => simpa using h
    | cons a t =>
      rw [List.nil_append, List.cons_append] at h
      injection h with h1 h2
      subst h1
      exact absurd (List.mem_cons_self d t) hx'
  | cons a t ih =>
    intro x' r r' hx hx' h
    cases x' with
    | nil =>
      rw [List.nil_append, List.cons_append] at h
      injection h with h1 h2
      subst h1
      exact absurd (List.mem_cons_self a t) hx
    | cons b t' =>
      rw [List.cons_append, List.cons_append] at h
      injection h with h1 h2
      obtain ⟨ht, hr⟩ := ih (fun hm => hx (List.mem_cons_of_mem a hm))
        (fun hm => hx' (List.mem_cons_of_mem b hm)) h2
      exact ⟨by rw [h1, ht], hr⟩

/-- The canonical encoding is injective on well-formed field sets: distinct
payload fields produce distinct canonical messages. -/
lemma canonicalEncode_inj :
    ∀ (p q : CanonFields), wfCanon p → wfCanon q →
      canonicalEncode p = canonicalEncode q → p = q := by
  rintro ⟨pb, pe, ph, pn, pt, pu, pv⟩ ⟨qb, qe, qh, qn, qt, qu, qv⟩
    ⟨hp1, hp2, hp3, hp4, hp5, hp6, hp7⟩ ⟨hq1, hq2, hq3, hq4, hq5, hq6, hq7⟩ h
  simp only [canonicalEncode, List.append_assoc, List.cons_append] at h
  simp only [List.cons.injEq, true_and] at h
  obtain ⟨hb, h⟩ := append_eq_of_delim hp1 hq1 h
  simp only [List.cons.injEq, true_and] at h
  obtain ⟨he, h⟩ := append_eq_of_delim hp2 hq2 h
  simp only [List.cons.injEq, true_and] at h
  obtain ⟨hh, h⟩ := append_eq_of_delim hp3 hq3 h
  simp only [List.cons.injEq, true_and] at h
  obtain ⟨hn, h⟩ := append_eq_of_delim hp4 hq4 h
  simp only [List.cons.injEq, true_and] at h
  obtain ⟨ht, h⟩ := append_eq_of_delim hp5 hq5 h
  simp only [List.cons.injEq, true_and] at h
  obtain ⟨hu, h⟩ := append_eq_of_delim hp6 hq6 h
  simp only [List.cons.injEq, true_and] at h
  obtain ⟨hv, -⟩ := append_eq_of_delim hp7 hq7 h
  have hb' : pb = qb := hb
  have he' : pe = qe := he
  have hh' : ph = qh := hh
  have hn' : pn = qn := hn
  have ht' : pt = qt := ht
  have hu' : pu = qu := hu
  have hv' : pv = qv := hv
  rw [hb', he', hh', hn', ht', hu', hv']

/-- Modelled from the spec: the Ed25519 signing primitive
(createSignedPayload in the shared package) is not under src, only its
callers are.  The spec requires the signature to verify against a known
public key for exactly the canonical byte encoding of the non-signature
fields, so the scheme is modelled as an ideal deterministic signature that
binds the signing key and the exact message. -/
def ed25519Sign (key : ℕ) (msg : List Char) : ℕ × List Char := (key, msg)

/-- Modelled from the spec: ideal Ed25519 verification — it accepts exactly
a signature produced with the matching key over exactly this message, which
is the contract the openssl pkeyutl call realizes in the generated script. -/
def ed25519Verify (key : ℕ) (msg : List Char) (sg : ℕ × List Char) : Bool :=
  decide (sg = (key, msg))

/-- C5: with tools, config, fetch and parse all good, the verifier passes
the verification stage — reaching allow or the below-threshold deny that
lies past the signature check — exactly when the payload user_key matches
the configured one, the expiry is strictly in the future, and the signature
over the canonical encoding is valid; and any mutation of any canonical
field (in particular any single-bit mutation) changes the canonical message
and invalidates a previously issued signature. -/
theorem verification_succeeds_iff_and_mutation_invalidates :
    (∀ env : ScriptEnv,
      env.jqInstalled = true → env.opensslInstalled = true →
      env.xxdInstalled = true → env.configExists = true →
      env.cfgUserKey ≠ [] → env.cfgUserKey ≠ nullChars →
      env.cfgPublicKey ≠ [] → env.cfgPublicKey ≠ nullChars →
      env.fetchOk = true → env.payloadPresent = true →
      env.fields.v ≠ none → env.fields.nonce ≠ none → env.fields.sig ≠ none →
      env.fields.bpm ≠ none → env.fields.threshold_bpm ≠ none →
      env.fields.user_key ≠ none → env.fields.hr_ok ≠ none →
      env.fields.exp_unix ≠ none →
      ((hrCheck env = CheckResult.allow ∨
        ∃ b t, hrCheck env = CheckResult.deny (DenyReason.belowThreshold b t)) ↔
       (env.fields.user_key = some env.cfgUserKey ∧
        (∃ e, env.fields.exp_unix = some e ∧ env.now < e) ∧
        env.sigValid = true))) ∧
    (∀ (key : ℕ) (p q : CanonFields), wfCanon p → wfCanon q → p ≠ q →
      ed25519Verify key (canonicalEncode q)
        (ed25519Sign key (canonicalEncode p)) = false) := by
  constructor
  · intro env h1 h2 h3 h4 h5a h5b h6a h6b h7 h8 hv hn hs hb ht huk hok he
    rcases Option.ne_none_iff_exists'.mp huk with ⟨uku, huku⟩
    rcases Option.ne_none_iff_exists'.mp he with ⟨ev, hev⟩
    rcases Option.ne_none_iff_exists'.mp hok with ⟨okv, hokv⟩
    unfold hrCheck
    rw [if_neg (by simp [h1]), if_neg (by simp [h2]), if_neg (by simp [h3]),
        if_neg (by simp [h4]),
        if_neg (by push_neg; exact ⟨h5a, h5b⟩), if_neg (by push_neg; exact ⟨h6a, h6b⟩),
        if_neg (by simp [h7]), if_neg (by simp [h8]),
        if_neg (by push_neg; exact ⟨hv, huk, hok, hb, ht, he, hn, hs⟩)]
    by_cases h10 : env.fields.user_key.getD [] ≠ env.cfgUserKey
    · rw [if_pos h10]
      rw [huku] at h10 ⊢
      simp only [Option.getD_some] at h10
      constructor
      · rintro (hc | ⟨b, t, hc⟩) <;> cases hc
      · rintro ⟨hc, -, -⟩
        injection hc with hc'
        exact absurd hc' h10
    rw [if_neg h10]
    push_neg at h10
    rw [huku] at h10
    simp only [Option.getD_some] at h10
    by_cases h11 : env.fields.exp_unix.getD 0 ≤ env.now
    · rw [if_pos h11]
      rw [hev] at h11
      simp only [Option.getD_some] at h11
      constructor
      · rintro (hc | ⟨b, t, hc⟩) <;> cases hc
      · rintro ⟨-, ⟨e', he', hlt⟩, -⟩
        rw [hev] at he'
        injection he' with he''
        omega
    rw [if_neg h11]
    push_neg at h11
    rw [hev] at h11
    simp only [Option.getD_some] at h11
    by_cases h12 : (!env.sigValid) = true
    · rw [if_pos h12]
      simp only [Bool.not_eq_true'] at h12
      constructor
      · rintro (hc | ⟨b, t, hc⟩) <;> cases hc
      · rintro ⟨-, -, hc⟩
        rw [h12] at hc
        cases hc
    rw [if_neg h12]
    simp only [Bool.not_eq_true', Bool.not_eq_false] at h12
    have hrhs : env.fields.user_key = some env.cfgUserKey ∧
        (∃ e, env.fields.exp_unix = some e ∧ env.now < e) ∧
        env.sigValid = true := ⟨by rw [huku, h10], ⟨ev, hev, h11⟩, h12⟩
    by_cases h13 : env.fields.hr_ok.getD [] ≠ trueChars
    · rw [if_pos h13]
      exact ⟨fun _ => hrhs, fun _ => Or.inr ⟨_, _, rfl⟩⟩
    · rw [if_neg h13]
      exact ⟨fun _ => hrhs, fun _ => Or.inl rfl⟩
  · intro key p q hp hq hne
    simp only [ed25519Verify, ed25519Sign, decide_eq_false_iff_not]
    intro heq
    injection heq with h1 h2
    exact hne (canonicalEncode_inj p q hp hq h2)

/-- Concrete environment for the C5 witness: every pre-verification check
passes. -/
def envC5 : ScriptEnv :=
  { jqInstalled := true, opensslInstalled := true, xxdInstalled := true,
    configExists := true,
    cfgUserKey := ("octocat").data, cfgPublicKey := ("ab12cd").data,
    fetchOk := true, payloadPresent := true,
    fields := { v := some (("1").data), user_key := some (("octocat").data),
                hr_ok := some trueChars, bpm := some (("120").data),
                threshold_bpm := some (("100").data), exp_unix := some 100,
                nonce := some (("n1").data), sig := some (("ff00").data) },
    now := 50, sigValid := true }

/-- Canonical fields for the C5 witness. -/
def canonP0 : CanonFields :=
  ⟨("120").data, ("100").data, trueChars, ("n1").data, ("95").data,
   ("octocat").data, ("1").data⟩

/-- The C5 witness fields with a one-character mutation of bpm. -/
def canonQ0 : CanonFields :=
  ⟨("121").data, ("100").data, trueChars, ("n1").data, ("95").data,
   ("octocat").data, ("1").data⟩

/-- Witness for C5: a concrete fully-valid environment, and a concrete
one-character bpm mutation that invalidates the signature. -/
theorem verification_succeeds_iff_and_mutation_invalidates_witness :
    ((hrCheck envC5 = CheckResult.allow ∨
      ∃ b t, hrCheck envC5 = CheckResult.deny (DenyReason.belowThreshold b t)) ↔
     (envC5.fields.user_key = some envC5.cfgUserKey ∧
      (∃ e, envC5.fields.exp_unix = some e ∧ envC5.now < e) ∧
      envC5.sigValid = true)) ∧
    (ed25519Verify 7 (canonicalEncode canonQ0)
      (ed25519Sign 7 (canonicalEncode canonP0)) = false) :=
  ⟨verification_succeeds_iff_and_mutation_invalidates.1 envC5 rfl rfl rfl rfl
      (by decide) (by decide) (by decide) (by decide) rfl rfl
      (by decide) (by decide) (by decide) (by decide) (by decide)
      (by decide) (by decide) (by decide),
   verification_succeeds_iff_and_mutation_invalidates.2 7 canonP0 canonQ0
      (by refine ⟨?_, ?_, ?_, ?_, ?_, ?_, ?_⟩ <;> decide)
      (by refine ⟨?_, ?_, ?_, ?_, ?_, ?_, ?_⟩ <;> decide) (by decide)⟩
